import Mathlib

/-!
Verification of the zstore storage-provisioning core.

The development shallowly embeds, from the Go sources:
  * the size-slug catalog and its custom sort order
    (`storage/slugs.go`: `storageSizeMap`, `Slugs`, `SlugSize`,
    `bySizeSlug.Less`),
  * the `Pool`/`Volume` abstraction (`storage/pool.go`), modelled as a
    record of response functions so that each scenario supplies a
    concrete backend behaviour, together with an explicit trace of the
    Pool calls each handler makes,
  * the HTTP storage handlers (`zstored/zstoredhttp/storage.go`:
    `ServeHTTP`, `destroyVolume`, `getVolumeHandler`,
    `getAllUserVolumeMetadata`, `getSingleVolumeMetadata`,
    `createVolume`, `storageSize`), taking the already-derived volume
    identifier as input (name derivation from the client address
    precedes dispatch and is outside the properties below).

Go `panic` sites inside the slug comparator are modelled with `Option`
(`none` = panic); machine integers are `Nat` with the explicit
`uint64` bound where the source checks it.  JSON marshalling of the
handler response structs is modelled for names without characters that
`encoding/json` would escape, which covers every value used here.
-/

namespace ZStore

/-- Errors surfaced by the storage layer (`storage/pool.go`):
`ErrVolumeNotExists`, `ErrPoolOutOfSpace`, and any other (opaque)
backend error, distinguished by an index. -/
inductive Err where
  | notExists
  | outOfSpace
  | backend (n : Nat)
deriving DecidableEq, Repr

/-- Constant `MB` from `storage/slugs.go`. -/
def MB : Nat := 1 * 1024 * 1024

/-- Constant `GB` from `storage/slugs.go`. -/
def GB : Nat := 1024 * MB

/-- Catalog `storageSizeMap` from `storage/slugs.go`, as an association list in
the source's literal order. -/
def storageSizeMap : List (String × Nat) :=
  [("256M", 256 * MB), ("512M", 512 * MB), ("1G", 1 * GB),
   ("2G", 2 * GB), ("4G", 4 * GB), ("8G", 8 * GB)]

/-- Lookup `SlugSize` from `storage/slugs.go`: exact-match catalog lookup. -/
def SlugSize (slug : String) : Option Nat :=
  storageSizeMap.lookup slug

/-- Suffix precedence table from `bySizeSlug.Less`
(`storage/slugs.go`); `none` models the `panic("unknown size slug suffix")`
for a suffix outside the table.  The Go code takes the final one-byte
substring; all slugs here are ASCII, so a `Char` is faithful. -/
def suffixPrecedence (c : Char) : Option Nat :=
  if c = 'B' then some 0
  else if c = 'K' then some 1
  else if c = 'M' then some 2
  else if c = 'G' then some 3
  else if c = 'T' then some 4
  else if c = 'P' then some 5
  else if c = 'E' then some 6
  else if c = 'Z' then some 7
  else if c = 'Y' then some 8
  else none

/-- Go `strconv.ParseUint(s, 10, 64)` as used by `bySizeSlug.Less`:
`none` models an error (which the Go code turns into a panic): empty
string, a non-digit character, or overflow of 64 bits. -/
def parseUint64 (cs : List Char) : Option Nat :=
  if cs.isEmpty then none
  else if cs.all Char.isDigit then
    let v := cs.foldl (fun acc c => acc * 10 + (c.toNat - '0'.toNat)) 0
    if v < 18446744073709551616 then some v else none
  else none

/-- Comparator `bySizeSlug.Less` from `storage/slugs.go`: compare two slugs first
by suffix precedence, then numerically by the integer prefix.  `none`
models the panics (empty slug, unknown suffix, unparsable integer). -/
def slugLess (a b : String) : Option Bool :=
  match a.toList.getLast?, b.toList.getLast? with
  | some ac, some bc =>
    match suffixPrecedence ac, suffixPrecedence bc with
    | some ap, some bp =>
      if ap < bp then some true
      else if bp < ap then some false
      else
        match parseUint64 a.toList.dropLast, parseUint64 b.toList.dropLast with
        | some av, some bv => some (av < bv)
        | _, _ => none
    | _, _ => none
  | _, _ => none

/-- Comparator `bySizeSlug.Less` as a `Bool`, defaulting the (never reached on
catalog slugs) panic case to `false`, for use by the sort. -/
def slugLessB (a b : String) : Bool :=
  (slugLess a b).getD false

/-- Insertion of one slug into an already-sorted list, ascending under
`bySizeSlug.Less`. -/
def insertSlug (x : String) : List String → List String
  | [] => [x]
  | y :: ys => if slugLessB x y then x :: y :: ys else y :: insertSlug x ys

/-- Sorting per `sort.Sort(bySizeSlug(slugs))`: the comparator is a
strict total order on the (distinct) catalog keys, so the sorted
sequence is unique and an insertion sort is a faithful model of Go's
(unstable) `sort.Sort`. -/
def sortSlugs : List String → List String
  | [] => []
  | x :: xs => insertSlug x (sortSlugs xs)

/-- Function `Slugs` from `storage/slugs.go`: every catalog key, sorted with the
`bySizeSlug` comparator.  (Go iterates the map in unspecified order
before sorting; the sorted result does not depend on that order.) -/
def Slugs : List String :=
  sortSlugs (storageSizeMap.map Prod.fst)

/-- A `Volume` as the handlers observe it (`storage/pool.go` interface
`Volume`): its name, its size in bytes, and the outcome of a
`Destroy()` call (`none` = success, `some e` = the error returned). -/
structure Volume where
  name : String
  size : Nat
  destroyErr : Option Err
deriving DecidableEq, Repr

/-- Decidable equality on `Except`, so that concrete backend responses
can be compared by `decide`. -/
instance {ε α : Type} [DecidableEq ε] [DecidableEq α] :
    DecidableEq (Except ε α) := fun a b =>
  match a, b with
  | .error e, .error f => decidable_of_iff (e = f) (by simp)
  | .ok x, .ok y => decidable_of_iff (x = y) (by simp)
  | .error _, .ok _ => isFalse (by simp)
  | .ok _, .error _ => isFalse (by simp)

/-- A `Pool` as the handlers observe it (`storage/pool.go` interface
`Pool`, with `ListVolumes` from the revision the HTTP handlers build
on): each operation's response, supplied per scenario. -/
structure Pool where
  name : String
  volume : String → Except Err Volume
  createVolume : String → Nat → Except Err Volume
  listVolumes : String → Except Err (List Volume)

/-- One call made against the Pool abstraction (or a resolved volume),
recorded so that theorems can speak about which backend operations a
handler performs. -/
inductive PoolCall where
  | volume (name : String)
  | createVolume (name : String) (size : Nat)
  | listVolumes (name : String)
  | destroy (volName : String)
deriving DecidableEq, Repr

/-- A server-side (`error` return value) failure inside a handler:
either a Pool error passed through, or a JSON body-decode error other
than `io.EOF`, distinguished by an index. -/
inductive SrvErr where
  | pool (e : Err)
  | decode (n : Nat)
deriving DecidableEq, Repr

/-- The body of an inbound HTTP request as `storageSize` observes it
through `json.NewDecoder(r.Body).Decode`: an empty body (decode yields
`io.EOF`), a body on which decoding fails with some other error, or a
successfully decoded `StorageRequest` carrying its `size` field (a
valid JSON object without a `size` field decodes to the empty slug). -/
inductive ReqBody where
  | empty
  | malformed (n : Nat)
  | object (size : String)
deriving DecidableEq, Repr

/-- The `(int, []byte, error)` triple a `StorageHandlerFunc` returns
(`zstored/zstoredhttp/storage.go`), plus the trace of Pool calls made
while producing it. -/
structure HandlerResult where
  code : Nat
  body : Option String
  err : Option SrvErr
  calls : List PoolCall
deriving DecidableEq, Repr

/-- The status code and body bytes actually written to the client. -/
structure Response where
  code : Nat
  body : String
deriving DecidableEq, Repr

/-- Go `strings.Split(s, "/")` on the character level (structural, so that
it evaluates inside the kernel). -/
def splitOnSlash : List Char → List (List Char)
  | [] => [[]]
  | c :: cs =>
    let r := splitOnSlash cs
    if c = '/' then [] :: r
    else
      match r with
      | [] => [[c]]
      | h :: t => (c :: h) :: t

/-- Go `len(strings.Split(name, "/"))`: the segment depth the handlers
switch on. -/
def splitDepth (s : String) : Nat :=
  (splitOnSlash s.toList).length

/-- Go's `path.Base`: empty path gives `"."`; otherwise trailing
slashes are stripped, the part after the last slash is kept, and a
path of only slashes gives `"/"`. -/
def pathBase (s : String) : String :=
  if s = "" then "."
  else
    let t := ((s.toList.reverse.dropWhile (· = '/')).takeWhile (· ≠ '/')).reverse
    if t.isEmpty then "/" else ⟨t⟩

/-- An element of the `volumes` JSON array: the wire form of the
`Volume` response struct (`Name`, `Size`). -/
structure JVolume where
  name : String
  size : Nat
deriving DecidableEq, Repr

/-- Go `json.Marshal` of one `Volume` response struct. -/
def volumeJSON (v : JVolume) : String :=
  "\x7b\"name\":\"" ++ v.name ++ "\",\"size\":" ++ toString v.size ++ "\x7d"

/-- Go `json.Marshal` of a `StorageResponse` wrapping a (non-nil) slice of
volumes. -/
def storageResponseJSON (vs : List JVolume) : String :=
  "\x7b\"volumes\":[" ++ String.intercalate "," (vs.map volumeJSON) ++ "]\x7d"

/-- Go `fmt.Sprintf("%s", slugs)` for a `[]string`: Go renders the slice
as the elements space-separated inside brackets. -/
def sprintfStrings (xs : List String) : String :=
  "[" ++ String.intercalate " " xs ++ "]"

/-- The wire form of a resolved volume: `path.Base` of its name plus
its size, as every handler marshals it. -/
def volumeOut (v : Volume) : JVolume :=
  ⟨pathBase v.name, v.size⟩

/-- Handler `destroyVolume` (`zstored/zstoredhttp/storage.go`): probe the Pool
for the named volume; 404 on `ErrVolumeNotExists`, 500 on any other
probe error, otherwise recursively destroy it — 500 if the destroy
fails, 204 on success. -/
def destroyVolume (p : Pool) (name : String) : HandlerResult :=
  match p.volume name with
  | .error e =>
    if e = .notExists then ⟨404, none, none, [.volume name]⟩
    else ⟨500, none, some (.pool e), [.volume name]⟩
  | .ok v =>
    match v.destroyErr with
    | some e => ⟨500, none, some (.pool e), [.volume name, .destroy v.name]⟩
    | none => ⟨204, none, none, [.volume name, .destroy v.name]⟩

/-- Handler `getAllUserVolumeMetadata`: depth guard, then `ListVolumes`; an
error other than `ErrVolumeNotExists` is a 500, while
`ErrVolumeNotExists` falls through with a nil slice, so both a
never-provisioned and an empty bucket produce 200 with `[]`. -/
def getAllUserVolumeMetadata (p : Pool) (name : String) : HandlerResult :=
  if splitDepth name ≠ 2 then ⟨404, none, none, []⟩
  else
    match p.listVolumes name with
    | .error e =>
      if e ≠ .notExists then ⟨500, none, some (.pool e), [.listVolumes name]⟩
      else ⟨200, some (storageResponseJSON []), none, [.listVolumes name]⟩
    | .ok vols =>
      ⟨200, some (storageResponseJSON (vols.map volumeOut)), none, [.listVolumes name]⟩

/-- Handler `getSingleVolumeMetadata`: depth guard, then a Pool probe; 404 on
`ErrVolumeNotExists`, 500 on any other error, 200 with a one-element
`volumes` array on success. -/
def getSingleVolumeMetadata (p : Pool) (name : String) : HandlerResult :=
  if splitDepth name ≠ 3 then ⟨404, none, none, []⟩
  else
    match p.volume name with
    | .error e =>
      if e = .notExists then ⟨404, none, none, [.volume name]⟩
      else ⟨500, none, some (.pool e), [.volume name]⟩
    | .ok v =>
      ⟨200, some (storageResponseJSON [volumeOut v]), none, [.volume name]⟩

/-- Handler `getVolumeHandler`: switch on the segment depth of the derived
name — 2 lists the bucket, 3 fetches one volume, anything else is 404
with no Pool call. -/
def getVolumeHandler (p : Pool) (name : String) : HandlerResult :=
  if splitDepth name = 2 then getAllUserVolumeMetadata p name
  else if splitDepth name = 3 then getSingleVolumeMetadata p name
  else ⟨404, none, none, []⟩

/-- Function `storageSize`: decode the request body; `io.EOF` (empty body) maps
to `errInvalidSize`, any other decode error is passed through, and a
decoded slug is resolved through the catalog (`errInvalidSize` when
absent). `.error none` stands for `errInvalidSize`, `.error (some n)`
for another decode error. -/
def storageSize (body : ReqBody) : Except (Option Nat) Nat :=
  match body with
  | .empty => .error none
  | .malformed n => .error (some n)
  | .object slug =>
    match SlugSize slug with
    | some size => .ok size
    | Option.none => .error none

/-- Handler `createVolume`: depth guard (404 when not 3), existence probe (409
when a volume resolves, 500 on a probe error other than
`ErrVolumeNotExists`), size parsing (400 with the slug catalog on
`errInvalidSize`, 500 on other decode errors), then `CreateVolume`
(503 on `ErrPoolOutOfSpace`, 500 on other errors, 201 with the wrapped
volume on success). -/
def createVolume (p : Pool) (name : String) (body : ReqBody) : HandlerResult :=
  if splitDepth name ≠ 3 then ⟨404, none, none, []⟩
  else
    match p.volume name with
    | .ok _ => ⟨409, none, none, [.volume name]⟩
    | .error e =>
      if e ≠ .notExists then ⟨500, none, some (.pool e), [.volume name]⟩
      else
        match storageSize body with
        | .error Option.none =>
          ⟨400, some (sprintfStrings Slugs), none, [.volume name]⟩
        | .error (some n) => ⟨500, none, some (.decode n), [.volume name]⟩
        | .ok size =>
          match p.createVolume name size with
          | .error e2 =>
            if e2 = .outOfSpace then
              ⟨503, none, none, [.volume name, .createVolume name size]⟩
            else
              ⟨500, none, some (.pool e2), [.volume name, .createVolume name size]⟩
          | .ok v =>
            ⟨201, some (storageResponseJSON [volumeOut v]), none,
              [.volume name, .createVolume name size]⟩

/-- The tail of `ServeHTTP`: a handler's server error is logged and
replaced by `http.Error(w, "internal server error", 500)` (which
appends a newline); otherwise the handler's code and body are written
(`w.Write(nil)` writes nothing). -/
def runHandler (r : HandlerResult) : Response × List PoolCall :=
  match r.err with
  | some _ => (⟨500, "internal server error\n"⟩, r.calls)
  | none => (⟨r.code, r.body.getD ""⟩, r.calls)

/-- Dispatcher `ServeHTTP` after name derivation: the method→handler map contains
exactly `DELETE`, `GET` and `POST`; any other method is answered with
`http.Error(w, "method not allowed", 405)` and no handler runs. -/
def serveHTTP (p : Pool) (method name : String) (body : ReqBody) :
    Response × List PoolCall :=
  if method = "DELETE" then runHandler (destroyVolume p name)
  else if method = "GET" then runHandler (getVolumeHandler p name)
  else if method = "POST" then runHandler (createVolume p name body)
  else (⟨405, "method not allowed\n"⟩, [])

/-- Scenario backend: nothing exists yet (`Volume` and `ListVolumes`
report `ErrVolumeNotExists`), creation succeeds with the requested
name and size. -/
def emptyPool : Pool :=
  ⟨"zstore", fun _ => .error .notExists, fun n s => .ok ⟨n, s, none⟩,
   fun _ => .error .notExists⟩

/-- Scenario backend: every name resolves to a destroyable volume of
size 7. -/
def fullPool : Pool :=
  ⟨"zstore", fun n => .ok ⟨n, 7, none⟩, fun n s => .ok ⟨n, s, none⟩,
   fun _ => .ok []⟩

/-- Scenario backend: nothing exists and creation fails with
`ErrPoolOutOfSpace`. -/
def outOfSpacePool : Pool :=
  ⟨"zstore", fun _ => .error .notExists, fun _ _ => .error .outOfSpace,
   fun _ => .error .notExists⟩

/-- Scenario backend: every name resolves to a volume whose `Destroy()`
fails with an opaque backend error. -/
def stuckPool : Pool :=
  ⟨"zstore", fun n => .ok ⟨n, 7, some (.backend 3)⟩,
   fun n s => .ok ⟨n, s, none⟩, fun _ => .ok []⟩

/-- Helper: the rendered slug catalog sent as the 400 response body. -/
theorem slugList_eq : sprintfStrings Slugs = "[256M 512M 1G 2G 4G 8G]" := by decide

/-- Helper: the slug `3TB` is not in the catalog. -/
theorem slugSize_3TB : SlugSize "3TB" = none := by decide

/-- C1, counterexample: a DELETE on the depth-1 identifier `zstore`
is not answered 404-without-Pool-call — `destroyVolume` has no depth
guard, probes the Pool, and (here) destroys a resolved volume with
204. -/
theorem C1_counterexample :
    splitDepth "zstore" ≠ 2 ∧ splitDepth "zstore" ≠ 3 ∧
    (serveHTTP fullPool "DELETE" "zstore" .empty).1.code = 204 ∧
    (serveHTTP fullPool "DELETE" "zstore" .empty).2 ≠ [] := by decide

/-- C1, amended: for GET and POST requests, an identifier whose depth
is neither 2 nor 3 is answered 404 with an empty body and no Pool call
is made (DELETE performs no depth validation, and methods outside the
dispatch table receive 405, so the original for-every-method claim
fails). -/
theorem C1_theorem (p : Pool) (m name : String) (b : ReqBody)
    (hm : m = "GET" ∨ m = "POST")
    (h2 : splitDepth name ≠ 2) (h3 : splitDepth name ≠ 3) :
    (serveHTTP p m name b).1 = ⟨404, ""⟩ ∧ (serveHTTP p m name b).2 = [] := by
  rcases hm with hm | hm <;> subst hm <;>
    simp [serveHTTP, getVolumeHandler, createVolume, runHandler, h2, h3]

/-- C1, witness: a GET on the depth-1 identifier `zstore` yields 404
with no Pool call. -/
theorem C1_witness :
    (serveHTTP emptyPool "GET" "zstore" .empty).1 = ⟨404, ""⟩ ∧
    (serveHTTP emptyPool "GET" "zstore" .empty).2 = [] :=
  C1_theorem emptyPool "GET" "zstore" .empty (Or.inl rfl) (by decide) (by decide)

/-- C2, counterexample: listing a never-provisioned bucket (the Pool
reports `ErrVolumeNotExists`) does not yield 404 — the handler swallows
`ErrVolumeNotExists` and answers 200 with an empty `volumes` array. -/
theorem C2_counterexample :
    emptyPool.listVolumes "zstore/bkt" = .error .notExists ∧
    (serveHTTP emptyPool "GET" "zstore/bkt" .empty).1.code ≠ 404 ∧
    (serveHTTP emptyPool "GET" "zstore/bkt" .empty).1 =
      ⟨200, "\x7b\"volumes\":[]\x7d"⟩ := by decide

/-- C2, amended: a GET on a depth-2 identifier yields 200 with an
empty JSON `volumes` array both when the bucket has never been
provisioned (the Pool reports `ErrVolumeNotExists`) and when the
bucket resolves with zero volumes; the two cases are not
distinguished. -/
theorem C2_theorem (p : Pool) (name : String) (b : ReqBody)
    (h2 : splitDepth name = 2)
    (h : p.listVolumes name = .error .notExists ∨ p.listVolumes name = .ok []) :
    (serveHTTP p "GET" name b).1 = ⟨200, storageResponseJSON []⟩ ∧
    (serveHTTP p "GET" name b).2 = [.listVolumes name] := by
  rcases h with h | h <;>
    simp [serveHTTP, getVolumeHandler, getAllUserVolumeMetadata, runHandler, h2, h]

/-- C2, witness: listing the never-provisioned bucket `zstore/bkt`
yields 200 with the empty `volumes` array. -/
theorem C2_witness :
    (serveHTTP emptyPool "GET" "zstore/bkt" .empty).1 = ⟨200, storageResponseJSON []⟩ ∧
    (serveHTTP emptyPool "GET" "zstore/bkt" .empty).2 = [.listVolumes "zstore/bkt"] :=
  C2_theorem emptyPool "zstore/bkt" .empty (by decide) (Or.inl (by decide))

/-- C3: a create (POST) on a depth-3 identifier at which a volume
already resolves is answered 409, with only the existence probe in the
Pool trace (so `CreateVolume` is never invoked); and when the probe
fails with any error other than `ErrVolumeNotExists` the answer is
500, again without `CreateVolume` being invoked. -/
theorem C3_theorem (p : Pool) (name : String) (b : ReqBody)
    (h3 : splitDepth name = 3) :
    (∀ v, p.volume name = .ok v →
      (serveHTTP p "POST" name b).1 = ⟨409, ""⟩ ∧
      (serveHTTP p "POST" name b).2 = [.volume name]) ∧
    (∀ e, e ≠ Err.notExists → p.volume name = .error e →
      (serveHTTP p "POST" name b).1 = ⟨500, "internal server error\n"⟩ ∧
      (serveHTTP p "POST" name b).2 = [.volume name]) := by
  constructor
  · intro v hv
    simp [serveHTTP, createVolume, runHandler, h3, hv]
  · intro e he hv
    simp [serveHTTP, createVolume, runHandler, h3, hv, he]

/-- C3, witness: a POST at an identifier where a volume already exists
yields 409 and the Pool trace holds only the probe. -/
theorem C3_witness :
    (serveHTTP fullPool "POST" "zstore/b/v" .empty).1 = ⟨409, ""⟩ ∧
    (serveHTTP fullPool "POST" "zstore/b/v" .empty).2 = [.volume "zstore/b/v"] :=
  (C3_theorem fullPool "zstore/b/v" .empty (by decide)).1 ⟨"zstore/b/v", 7, none⟩ (by decide)

/-- C4: on the create path (depth 3, probe reports
`ErrVolumeNotExists`), a missing body or an unknown size slug — for
example `3TB` — yields 400 with the six built-in slugs rendered as the
body; `CreateVolume` failing with `ErrPoolOutOfSpace` yields 503, and
any other backend error yields 500. -/
theorem C4_theorem (p : Pool) (name : String)
    (h3 : splitDepth name = 3)
    (hprobe : p.volume name = .error .notExists) :
    ((serveHTTP p "POST" name .empty).1 = ⟨400, "[256M 512M 1G 2G 4G 8G]"⟩) ∧
    ((serveHTTP p "POST" name (.object "3TB")).1 = ⟨400, "[256M 512M 1G 2G 4G 8G]"⟩) ∧
    (∀ slug, SlugSize slug = none →
      (serveHTTP p "POST" name (.object slug)).1 = ⟨400, "[256M 512M 1G 2G 4G 8G]"⟩) ∧
    (∀ slug size, SlugSize slug = some size →
      p.createVolume name size = .error .outOfSpace →
      (serveHTTP p "POST" name (.object slug)).1 = ⟨503, ""⟩) ∧
    (∀ slug size e, SlugSize slug = some size →
      e ≠ Err.outOfSpace → p.createVolume name size = .error e →
      (serveHTTP p "POST" name (.object slug)).1 = ⟨500, "internal server error\n"⟩) := by
  refine ⟨?_, ?_, ?_, ?_, ?_⟩
  · simp [serveHTTP, createVolume, runHandler, storageSize, h3, hprobe, slugList_eq]
  · simp [serveHTTP, createVolume, runHandler, storageSize, h3, hprobe,
      slugSize_3TB, slugList_eq]
  · intro slug hs
    simp [serveHTTP, createVolume, runHandler, storageSize, h3, hprobe, hs, slugList_eq]
  · intro slug size hs hc
    simp [serveHTTP, createVolume, runHandler, storageSize, h3, hprobe, hs, hc]
  · intro slug size e hs he hc
    simp [serveHTTP, createVolume, runHandler, storageSize, h3, hprobe, hs, hc, he]

/-- C4, witness: the unknown slug `3TB` yields 400 with the six
built-in slugs as the body, and a create against an exhausted pool
yields 503. -/
theorem C4_witness :
    (serveHTTP emptyPool "POST" "zstore/b/v" (.object "3TB")).1 =
      ⟨400, "[256M 512M 1G 2G 4G 8G]"⟩ ∧
    (serveHTTP outOfSpacePool "POST" "zstore/b/v" (.object "512M")).1 = ⟨503, ""⟩ :=
  ⟨(C4_theorem emptyPool "zstore/b/v" (by decide) (by decide)).2.1,
   (C4_theorem outOfSpacePool "zstore/b/v" (by decide) (by decide)).2.2.2.1
     "512M" 536870912 (by decide) (by decide)⟩

/-- C5, counterexample: creating `zstore/ab/disk1` with slug `512M`
succeeds with 201, but the body is not the claimed flat
name-and-size object (neither with the bucket-qualified name
`ab/disk1` nor with the bare leaf) — it is a `volumes`-wrapped array
whose single element carries only the leaf `disk1`. -/
theorem C5_counterexample :
    (serveHTTP emptyPool "POST" "zstore/ab/disk1" (.object "512M")).1.code = 201 ∧
    (serveHTTP emptyPool "POST" "zstore/ab/disk1" (.object "512M")).1.body ≠
      "\x7b\"name\":\"ab/disk1\",\"size\":536870912\x7d" ∧
    (serveHTTP emptyPool "POST" "zstore/ab/disk1" (.object "512M")).1.body ≠
      "\x7b\"name\":\"disk1\",\"size\":536870912\x7d" ∧
    (serveHTTP emptyPool "POST" "zstore/ab/disk1" (.object "512M")).1.body =
      "\x7b\"volumes\":[\x7b\"name\":\"disk1\",\"size\":536870912\x7d]\x7d" := by decide

/-- C5, amended: a successful create responds 201 with a JSON body of
the form with a single-element `volumes` array, whose element's name
is the final path segment (leaf only) of the created volume's name and
whose size is the size reported by the created volume (the resolved
byte count of the slug whenever the Pool honors the requested
size). -/
theorem C5_theorem (p : Pool) (name slug : String) (size : Nat) (v : Volume)
    (h3 : splitDepth name = 3)
    (hprobe : p.volume name = .error .notExists)
    (hslug : SlugSize slug = some size)
    (hcreate : p.createVolume name size = .ok v) :
    (serveHTTP p "POST" name (.object slug)).1 =
      ⟨201, storageResponseJSON [⟨pathBase v.name, v.size⟩]⟩ ∧
    (serveHTTP p "POST" name (.object slug)).2 =
      [.volume name, .createVolume name size] := by
  simp [serveHTTP, createVolume, runHandler, storageSize, h3, hprobe, hslug,
    hcreate, volumeOut]

/-- C5, witness: creating `zstore/ab/disk1` with slug `512M` yields
201 and the `volumes`-wrapped body naming the leaf `disk1` with size
536870912. -/
theorem C5_witness :
    (serveHTTP emptyPool "POST" "zstore/ab/disk1" (.object "512M")).1 =
      ⟨201, "\x7b\"volumes\":[\x7b\"name\":\"disk1\",\"size\":536870912\x7d]\x7d"⟩ := by
  have h := C5_theorem emptyPool "zstore/ab/disk1" "512M" 536870912
    ⟨"zstore/ab/disk1", 536870912, none⟩ (by decide) (by decide) (by decide) (by decide)
  exact h.1.trans (by decide)

/-- C6: a DELETE on a depth-3 identifier yields 404 with no body when
the Pool reports `ErrVolumeNotExists`, 500 when the recursive destroy
fails (with exactly one destroy attempt in the trace — no retry), and
204 with no body when the destroy succeeds. -/
theorem C6_theorem (p : Pool) (name : String) (b : ReqBody)
    (_h3 : splitDepth name = 3) :
    (p.volume name = .error .notExists →
      (serveHTTP p "DELETE" name b).1 = ⟨404, ""⟩ ∧
      (serveHTTP p "DELETE" name b).2 = [.volume name]) ∧
    (∀ v e, p.volume name = .ok v → v.destroyErr = some e →
      (serveHTTP p "DELETE" name b).1 = ⟨500, "internal server error\n"⟩ ∧
      (serveHTTP p "DELETE" name b).2 = [.volume name, .destroy v.name]) ∧
    (∀ v, p.volume name = .ok v → v.destroyErr = none →
      (serveHTTP p "DELETE" name b).1 = ⟨204, ""⟩ ∧
      (serveHTTP p "DELETE" name b).2 = [.volume name, .destroy v.name]) := by
  refine ⟨?_, ?_, ?_⟩
  · intro hv
    simp [serveHTTP, destroyVolume, runHandler, hv]
  · intro v e hv hd
    simp [serveHTTP, destroyVolume, runHandler, hv, hd]
  · intro v hv hd
    simp [serveHTTP, destroyVolume, runHandler, hv, hd]

/-- C6, witness: deleting an absent volume yields 404, deleting a
volume whose destroy fails yields 500, and a successful destroy yields
204. -/
theorem C6_witness :
    (serveHTTP emptyPool "DELETE" "zstore/b/v" .empty).1 = ⟨404, ""⟩ ∧
    (serveHTTP stuckPool "DELETE" "zstore/b/v" .empty).1 =
      ⟨500, "internal server error\n"⟩ ∧
    (serveHTTP fullPool "DELETE" "zstore/b/v" .empty).1 = ⟨204, ""⟩ :=
  ⟨((C6_theorem emptyPool "zstore/b/v" .empty (by decide)).1 (by decide)).1,
   ((C6_theorem stuckPool "zstore/b/v" .empty (by decide)).2.1
     ⟨"zstore/b/v", 7, some (.backend 3)⟩ (.backend 3) (by decide) rfl).1,
   ((C6_theorem fullPool "zstore/b/v" .empty (by decide)).2.2
     ⟨"zstore/b/v", 7, none⟩ (by decide) rfl).1⟩

/-- C7: the destroy handler performs no depth validation — a DELETE on
a depth-2 (bucket-level) identifier probes the Pool at the bucket name
itself and, when a volume resolves there and its recursive destroy
succeeds, responds 204 instead of rejecting the collection-level
DELETE with 404. -/
theorem C7_theorem (p : Pool) (name : String) (b : ReqBody) (v : Volume)
    (_h2 : splitDepth name = 2)
    (hv : p.volume name = .ok v) (hd : v.destroyErr = none) :
    (serveHTTP p "DELETE" name b).1 = ⟨204, ""⟩ ∧
    (serveHTTP p "DELETE" name b).2 = [.volume name, .destroy v.name] := by
  simp [serveHTTP, destroyVolume, runHandler, hv, hd]

/-- C7, witness: a DELETE on the depth-2 identifier `zstore/bkt`
destroys the volume resolved at the bucket name and yields 204. -/
theorem C7_witness :
    (serveHTTP fullPool "DELETE" "zstore/bkt" .empty).1 = ⟨204, ""⟩ ∧
    (serveHTTP fullPool "DELETE" "zstore/bkt" .empty).2 =
      [.volume "zstore/bkt", .destroy "zstore/bkt"] :=
  C7_theorem fullPool "zstore/bkt" .empty ⟨"zstore/bkt", 7, none⟩
    (by decide) (by decide) rfl

/-- C8, counterexample: a PUT is not dispatched to the volume-create
operation — it is answered 405 with no Pool call, while the same
request sent as POST creates the volume with 201. -/
theorem C8_counterexample :
    (serveHTTP emptyPool "PUT" "zstore/b/v" (.object "512M")).1 =
      ⟨405, "method not allowed\n"⟩ ∧
    (serveHTTP emptyPool "PUT" "zstore/b/v" (.object "512M")).2 = [] ∧
    (serveHTTP emptyPool "POST" "zstore/b/v" (.object "512M")).1.code = 201 := by decide

/-- C8, amended: only POST is dispatched to the volume-create
operation, and every method outside the dispatch table — PUT included
— receives 405 Method Not Allowed with no handler run and no Pool
call. -/
theorem C8_theorem (p : Pool) (m name : String) (b : ReqBody)
    (hm : m ≠ "DELETE" ∧ m ≠ "GET" ∧ m ≠ "POST") :
    serveHTTP p "POST" name b = runHandler (createVolume p name b) ∧
    serveHTTP p m name b = (⟨405, "method not allowed\n"⟩, []) := by
  refine ⟨by simp [serveHTTP], ?_⟩
  simp [serveHTTP, hm.1, hm.2.1, hm.2.2]

/-- C8, witness: a PUT is answered 405 with no Pool call. -/
theorem C8_witness :
    serveHTTP emptyPool "PUT" "zstore/x/y" .empty =
      (⟨405, "method not allowed\n"⟩, []) :=
  (C8_theorem emptyPool "PUT" "zstore/x/y" .empty
    ⟨by decide, by decide, by decide⟩).2

/-- C9: `Slugs` returns every catalog key in ascending order under the
`bySizeSlug` comparison (suffix precedence `B` before `K` before `M`
before `G` before `T` before `P` before `E` before `Z` before `Y`,
ties broken by numeric magnitude), giving exactly
256M, 512M, 1G, 2G, 4G, 8G; and the comparison orders `9M` below
`10M`, `8G` below `1T`, and `2K` below `1M`. -/
theorem C9_theorem :
    Slugs = ["256M", "512M", "1G", "2G", "4G", "8G"] ∧
    Slugs.Perm (storageSizeMap.map Prod.fst) ∧
    List.Chain' (fun a b => slugLess a b = some true) Slugs ∧
    slugLess "9M" "10M" = some true ∧ slugLess "10M" "9M" = some false ∧
    slugLess "8G" "1T" = some true ∧ slugLess "1T" "8G" = some false ∧
    slugLess "2K" "1M" = some true ∧ slugLess "1M" "2K" = some false := by
  refine ⟨by decide, ?_, ?_, by decide⟩
  · rw [show Slugs = storageSizeMap.map Prod.fst from by decide]
  · rw [show Slugs = ["256M", "512M", "1G", "2G", "4G", "8G"] from by decide]
    repeat constructor

/-- C10: on the create path (depth 3, probe reports
`ErrVolumeNotExists`), a body whose decode fails with any error other
than end-of-file yields 500 internal server error, not 400; only the
completely empty body maps to the invalid-size condition and produces
the 400 response carrying the slug catalog. -/
theorem C10_theorem (p : Pool) (name : String)
    (h3 : splitDepth name = 3)
    (hprobe : p.volume name = .error .notExists) :
    (∀ n, storageSize (.malformed n) = .error (some n)) ∧
    (∀ n, (serveHTTP p "POST" name (.malformed n)).1 =
      ⟨500, "internal server error\n"⟩) ∧
    (storageSize .empty = .error none) ∧
    ((serveHTTP p "POST" name .empty).1 = ⟨400, sprintfStrings Slugs⟩) := by
  refine ⟨fun n => rfl, ?_, rfl, ?_⟩
  · intro n
    simp [serveHTTP, createVolume, runHandler, storageSize, h3, hprobe]
  · simp [serveHTTP, createVolume, runHandler, storageSize, h3, hprobe]

/-- C10, witness: a malformed body yields 500 while an empty body
yields 400 with the slug catalog. -/
theorem C10_witness :
    (serveHTTP emptyPool "POST" "zstore/b/v" (.malformed 0)).1 =
      ⟨500, "internal server error\n"⟩ ∧
    (serveHTTP emptyPool "POST" "zstore/b/v" .empty).1 =
      ⟨400, sprintfStrings Slugs⟩ :=
  ⟨(C10_theorem emptyPool "zstore/b/v" (by decide) (by decide)).2.1 0,
   (C10_theorem emptyPool "zstore/b/v" (by decide) (by decide)).2.2.2⟩

end ZStore
